import Mathlib

/-!
Shallow embedding of the response-decoder synthesis engine of
`src/commands/gen-api-models/render.ts` (and its data model from
`src/commands/gen-api-models/types.ts`).

Every definition below is translated from the TypeScript source, keeping the
source's names where Lean allows it.  The helpers `capitalize`, `uncapitalize`,
`toUnionOfLiterals` and `withGenerics` are imported by the source from
`lib/utils`, a file that is not part of the sources at hand; they are modelled
from the specification (section 4.1) and are marked as such.

JavaScript peculiarities that matter for faithfulness:
- `Array.prototype.map`/`reduce` pass the element index to the callback; this
  is embedded with the index-passing `mapIdxFrom` / `foldlIdxFrom` below.
- `String.prototype.replace` with a string pattern replaces only the FIRST
  occurrence; this is embedded by `removeFirstQuestion`.
- `e1[0] === "2"` reads the first character (undefined on the empty string);
  this is embedded as `s.data.head? == some c`.
-/

set_option maxHeartbeats 1000000

/-- Tuple type from `@pagopa/ts-commons/lib/tuples` as used by the source. -/
structure ITuple3 (A B C : Type) where
  e1 : A
  e2 : B
  e3 : C
  deriving Repr, DecidableEq

/-- A parsed response: status code, payload type name, header names
(`types.ts`, field `responses` of `IOperationInfo`). -/
abbrev Response := ITuple3 String String (List String)

/-- `types.ts`: supported http methods. -/
inductive SupportedMethod where
  | get
  | post
  | put
  | delete
  deriving Repr, DecidableEq

/-- The string carried by a `SupportedMethod` value. -/
def SupportedMethod.asString : SupportedMethod → String
  | .get => "get"
  | .post => "post"
  | .put => "put"
  | .delete => "delete"

/-- `types.ts`: shape of a parsed parameter. -/
structure IParameterInfo where
  name : String
  type : String
  «in» : String
  headerName : Option String
  deriving Repr, DecidableEq

/-- `types.ts`: shape of a parsed operation. -/
structure IOperationInfo where
  method : SupportedMethod
  operationId : String
  parameters : List IParameterInfo
  responses : List Response
  headers : List String
  importedTypes : List String
  path : String
  consumes : Option String
  produces : Option String
  deriving Repr, DecidableEq

/-- JS `Array.prototype.map` with the element index, starting at `k`. -/
def mapIdxFrom (f : α → Nat → β) : Nat → List α → List β
  | _, [] => []
  | i, a :: as => f a i :: mapIdxFrom f (i + 1) as

/-- JS `Array.prototype.map((x, i) => ...)`. -/
def mapIdx (f : α → Nat → β) (l : List α) : List β :=
  mapIdxFrom f 0 l

/-- JS `Array.prototype.reduce` with the element index, starting at `k`. -/
def foldlIdxFrom (f : β → α → Nat → β) : β → Nat → List α → β
  | b, _, [] => b
  | b, i, a :: as => foldlIdxFrom f (f b a i) (i + 1) as

/-- JS `Array.prototype.reduce((acc, x, i) => ...)`. -/
def foldlIdx (f : β → α → Nat → β) (b : β) (l : List α) : β :=
  foldlIdxFrom f b 0 l

/-- Modelled from the spec: `capitalize` of `lib/utils` (not among the given
sources): first-character upper-case transform, identity on empty input. -/
def capitalize (s : String) : String :=
  match s.data with
  | [] => ""
  | c :: cs => String.mk (c.toUpper :: cs)

/-- Modelled from the spec: `uncapitalize` of `lib/utils` (not among the given
sources): first-character lower-case transform, identity on empty input. -/
def uncapitalize (s : String) : String :=
  match s.data with
  | [] => ""
  | c :: cs => String.mk (c.toLower :: cs)

/-- Modelled from the spec: `toUnionOfLiterals` of `lib/utils` (not among the
given sources): `"never"` when the list is empty, else the union of the
double-quoted string literals in input order. -/
def toUnionOfLiterals (l : List String) : String :=
  if l.isEmpty then "never"
  else String.intercalate "|" (l.map (fun n => "\"" ++ n ++ "\""))

/-- Modelled from the spec: `withGenerics` of `lib/utils` (not among the given
sources): the base name unchanged when there are no parameter expressions, else
the base name applied to the comma-joined parameter expressions in angle
brackets. -/
def withGenerics (baseName : String) (paramExprs : List String) : String :=
  if paramExprs.isEmpty then baseName
  else baseName ++ "<" ++ String.intercalate ", " paramExprs ++ ">"

/-- `render.ts` line 201: the name of the var holding the set of decoders. -/
def typeVarName : String := "type"

/-- `render.ts` line 203. -/
def decoderFunctionName (operationId : String) : String :=
  operationId ++ "Decoder"

/-- `render.ts` line 204. -/
def defaultDecoderFunctionName (operationId : String) : String :=
  operationId ++ "DefaultDecoder"

/-- `render.ts` line 206: per-status decoder binding name. -/
def decoderName (statusCode : String) : String :=
  "d" ++ statusCode

/-- `render.ts` line 194: the predicate of the success scan,
`e1.length === 3 && e1[0] === "2"`. -/
def is2xxStatus (s : String) : Bool :=
  s.length == 3 && s.data.head? == some '2'

/-- `render.ts` lines 193-195: the first 2xx type, used as "success type". -/
def firstSuccessType (responses : List Response) : Option Response :=
  responses.find? (fun r => is2xxStatus r.e1)

/-- `render.ts` lines 347-361, `getDecoderForResponse`. -/
def getDecoderForResponse (t : Response) (varName : String) : String :=
  if t.e2 == "Error" then
    "r.basicErrorResponseDecoder<" ++ t.e1 ++ ">(" ++ t.e1 ++ ")"
  else
    varName ++ "[" ++ t.e1 ++ "].name === \"undefined\" \n        ? r.constantResponseDecoder<undefined, " ++
      t.e1 ++ ", " ++ toUnionOfLiterals t.e3 ++ ">(" ++ t.e1 ++
      ", undefined) \n        : r.ioResponseDecoder<" ++ t.e1 ++ ", (typeof " ++
      varName ++ "[" ++ t.e1 ++ "])[\"_A\"], (typeof " ++ varName ++ "[" ++
      t.e1 ++ "])[\"_O\"], " ++ toUnionOfLiterals t.e3 ++ ">(" ++ t.e1 ++
      ", " ++ varName ++ "[" ++ t.e1 ++ "])"

/-- `render.ts` lines 209-216: the block emitted for the `i`-th response inside
`decoderDefinitions`. -/
def decoderDefBlock (r : Response) (i : Nat) : String :=
  "\n    const " ++ decoderName r.e1 ++ " = (" ++
    getDecoderForResponse r typeVarName ++
    ") as r.ResponseDecoder<r.IResponseType<" ++ r.e1 ++ ", A" ++ toString i ++
    ", " ++ toUnionOfLiterals r.e3 ++ ">>;\n  "

/-- `render.ts` lines 207-218 before the `join("")`. -/
def decoderDefinitionsList (responses : List Response) : List String :=
  mapIdx decoderDefBlock responses

/-- `render.ts` lines 207-218, `decoderDefinitions`. -/
def decoderDefinitions (responses : List Response) : String :=
  String.join (decoderDefinitionsList responses)

/-- `render.ts` lines 219-225, `composedDecoders`: reduce over the responses
with the empty string as sentinel seed. -/
def composedDecoders (responses : List Response) : String :=
  responses.foldl
    (fun acc r =>
      if acc == "" then decoderName r.e1
      else "r.composeResponseDecoders(" ++ acc ++ ", " ++ decoderName r.e1 ++ ")")
    ""

/-- `render.ts` lines 229-232, `responsesTGenerics`: `A0, C0, A1, C1, ...`. -/
def responsesTGenerics (responses : List Response) : List String :=
  foldlIdx (fun p _ i => p ++ ["A" ++ toString i, "C" ++ toString i]) [] responses

/-- `render.ts` lines 236-239, `responsesTGenericsWithDefaultTypes`:
`A0 = X, C0 = X, A1 = Y, C1 = Y, ...`. -/
def responsesTGenericsWithDefaultTypes (responses : List Response) : List String :=
  foldlIdx
    (fun p r i =>
      p ++ ["A" ++ toString i ++ " = " ++ r.e2, "C" ++ toString i ++ " = " ++ r.e2])
    [] responses

/-- `render.ts` lines 242-245, `responsesTypeName`. -/
def responsesTypeName (operationId : String) (responses : List Response) : String :=
  withGenerics (capitalize operationId ++ "ResponsesT") (responsesTGenerics responses)

/-- `render.ts` lines 248-251, `responsesTypeNameWithDefaultTypes`. -/
def responsesTypeNameWithDefaultTypes (operationId : String)
    (responses : List Response) : String :=
  withGenerics (capitalize operationId ++ "ResponsesT")
    (responsesTGenericsWithDefaultTypes responses)

/-- `render.ts` lines 254-257, `decoderDefinitionName`. -/
def decoderDefinitionName (operationId : String) (responses : List Response) : String :=
  withGenerics (decoderFunctionName operationId)
    (responsesTGenericsWithDefaultTypes responses)

/-- `render.ts` lines 259-261, `responsesTContent`. -/
def responsesTContent (responses : List Response) : List String :=
  mapIdx
    (fun r i => r.e1 ++ ": t.Type<A" ++ toString i ++ ", C" ++ toString i ++ ">")
    responses

/-- `render.ts` lines 267-271, `responsesT`. -/
def responsesT (operationId : String) (responses : List Response) : String :=
  "\n    export type " ++ responsesTypeNameWithDefaultTypes operationId responses ++
    " = \x7b\n      " ++ String.intercalate ", " (responsesTContent responses) ++
    "\n    \x7d;\n  "

/-- `render.ts` lines 275-279, `responsesSuccessTContent`: the last index whose
status code equals the success status wins. -/
def responsesSuccessTContent (responses : List Response) (fs : Response) : String :=
  foldlIdx
    (fun p r i =>
      if r.e1 != fs.e1 then p
      else "t.Type<A" ++ toString i ++ ", C" ++ toString i ++ ">")
    "" responses

/-- `render.ts` lines 281-283, `defaultResponsesVarName`. -/
def defaultResponsesVarName (operationId : String) : String :=
  uncapitalize operationId ++ "DefaultResponses"

/-- `render.ts` lines 292-298, `defaultResponses`. -/
def defaultResponses (operationId : String) (responses : List Response) : String :=
  "\n    export const " ++ defaultResponsesVarName operationId ++
    " = \x7b\n      " ++
    String.intercalate ", "
      (responses.map
        (fun r => r.e1 ++ ": " ++ (if r.e2 == "undefined" then "t.undefined" else r.e2))) ++
    "\n    \x7d;\n  "

/-- `render.ts` lines 305-315, `returnType`. -/
def returnType (responses : List Response) : String :=
  "r.ResponseDecoder<\n    " ++
    String.intercalate "|"
      (mapIdx
        (fun r i =>
          "r.IResponseType<" ++ r.e1 ++ ", A" ++ toString i ++ ", " ++
            toUnionOfLiterals r.e3 ++ ">")
        responses) ++
    "\n  >"

/-- `render.ts` lines 317-334: the template literal returned by
`renderDecoderCode` once a success response `fs` has been found.  The string
literals are chunked at the boundaries the theorems below decompose at; their
concatenation is exactly the source template. -/
def decoderCodeBody (op : IOperationInfo) (fs : Response) : String :=
  "\n      " ++ defaultResponses op.operationId op.responses ++
  "\n      " ++ responsesT op.operationId op.responses ++
  "\n      export function " ++ decoderDefinitionName op.operationId op.responses ++
  "(overrideTypes: Partial<" ++ responsesTypeName op.operationId op.responses ++
  "> | " ++ responsesSuccessTContent op.responses fs ++
  " | undefined = \x7b\x7d): " ++ returnType op.responses ++
  " \x7b\n        const isDecoder = (d: any): d is " ++
  responsesSuccessTContent op.responses fs ++
  " =>\n          typeof d[\"_A\"] !== \"undefined\";\n\n        const " ++
  typeVarName ++ " = \x7b\n          ...(" ++
  defaultResponsesVarName op.operationId ++ " as unknown as " ++
  responsesTypeName op.operationId op.responses ++ "),\n          " ++
  "...(isDecoder(overrideTypes) ? \x7b " ++ fs.e1 ++
  ": overrideTypes \x7d : overrideTypes)" ++ "\n        \x7d;\n\n        " ++
  decoderDefinitions op.responses ++
  "\n        return " ++ composedDecoders op.responses ++
  "\n      \x7d" ++
  "\n\n      // Decodes the success response with the type defined in the specs\n      export const " ++
  defaultDecoderFunctionName op.operationId ++ " = () => " ++
  decoderFunctionName op.operationId ++ "();"

/-- `render.ts` lines 191-335, `renderDecoderCode`: empty string when no
success response is found, the full decoder block otherwise. -/
def renderDecoderCode (op : IOperationInfo) : String :=
  match firstSuccessType op.responses with
  | none => ""
  | some fs => decoderCodeBody op fs

/-- `render.ts` lines 145-146, `headersCode`. -/
def headersCode (headers : List String) : String :=
  if headers.length > 0 then
    String.intercalate "|" (headers.map (fun h => "\"" ++ h ++ "\""))
  else "never"

/-- `render.ts` lines 148-155, `responsesType`. -/
def responsesType (responses : List Response) : String :=
  String.intercalate "|"
    (responses.map
      (fun r =>
        "r.IResponseType<" ++ r.e1 ++ ", " ++ r.e2 ++ ", " ++
          toUnionOfLiterals r.e3 ++ ">"))

/-- Helper for `removeFirstQuestion`: drop the first occurrence of the
character `?` from a list of characters. -/
def removeFirstQAux : List Char → List Char
  | [] => []
  | c :: cs => if c = '?' then cs else c :: removeFirstQAux cs

/-- JS `id.replace("?", "")`: with a string pattern, `String.prototype.replace`
replaces only the first occurrence. -/
def removeFirstQuestion (s : String) : String :=
  String.mk (removeFirstQAux s.data)

/-- `render.ts` lines 158-159, `escapeIdentifier`: wraps an identifier with
double quotes, turning a name containing `?` into an optional key. -/
def escapeIdentifier (idf : String) : String :=
  if idf.data.contains '?' then "\"" ++ removeFirstQuestion idf ++ "\"?"
  else "\"" ++ idf ++ "\""

/-- `render.ts` lines 161-163, `paramsCode`. -/
def paramsCode (parameters : List IParameterInfo) : String :=
  String.intercalate ","
    (parameters.map
      (fun param => "readonly " ++ escapeIdentifier param.name ++ ": " ++ param.type))

/-- `render.ts` line 143, `requestType`. -/
def requestType (method : SupportedMethod) : String :=
  "r.I" ++ capitalize method.asString ++ "ApiRequestType"

/-- `render.ts` lines 169-172, `requestTypeDefinition`. -/
def requestTypeDefinition (op : IOperationInfo) : String :=
  "export type " ++ capitalize op.operationId ++ "T = " ++ requestType op.method ++
    "<\x7b" ++ paramsCode op.parameters ++ "\x7d, " ++ headersCode op.headers ++
    ", never, " ++ responsesType op.responses ++ ">;\n  "

/-- `render.ts` lines 137-183, `renderOperation`. -/
def renderOperation (op : IOperationInfo) (generateResponseDecoders : Bool) : String :=
  "\n    /****************************************************************\n     * " ++
    op.operationId ++
    "\n     */\n\n    // Request type definition\n    " ++
    requestTypeDefinition op ++
    (if generateResponseDecoders then renderDecoderCode op else "")

/-- Follows the spec's words (section 4.3 item 1): one map entry per response,
status code to payload type name, the sentinel literal `undefined` rewritten to
the canonical void type reference `t.undefined`. -/
def specDefaultResponseEntry (r : Response) : String :=
  r.e1 ++ ": " ++ (if r.e2 == "undefined" then "t.undefined" else r.e2)

/-- Follows claim C3's words: a status code matching the 3-character numeric
convention, i.e. exactly three decimal digits. -/
def specIsThreeDecimalDigits (s : String) : Bool :=
  s.length == 3 && s.data.all Char.isDigit

/-- Flattened indexed map, the normal form of the append-accumulating reduces
of `render.ts` lines 229-239. -/
def flatMapIdxFrom (g : α → Nat → List β) : Nat → List α → List β
  | _, [] => []
  | k, a :: as => g a k ++ flatMapIdxFrom g (k + 1) as

/-- A sample operation: `getThing` with a 200/Thing and a 404/undefined
response and an optional `limit?` query parameter. -/
def sampleOp : IOperationInfo :=
  { method := .get
    operationId := "getThing"
    parameters := [{ name := "limit?", type := "number", «in» := "query", headerName := none }]
    responses := [⟨"200", "Thing", []⟩, ⟨"404", "undefined", []⟩]
    headers := []
    importedTypes := ["Thing"]
    path := "/thing"
    consumes := none
    produces := none }

/-- A sample operation with no 2xx response at all. -/
def sampleOpNo2xx : IOperationInfo :=
  { method := .get
    operationId := "failThing"
    parameters := []
    responses := [⟨"500", "Error", []⟩, ⟨"404", "undefined", []⟩]
    headers := []
    importedTypes := []
    path := "/fail"
    consumes := none
    produces := none }

/-- A sample operation whose first 2xx response in input order (`299`) is not
the first in sorted order (`200` follows it), and which lists the status code
`200` twice. -/
def sampleOpDup : IOperationInfo :=
  { method := .post
    operationId := "dupThing"
    parameters := []
    responses := [⟨"299", "Late", []⟩, ⟨"200", "Thing", []⟩, ⟨"200", "Other", []⟩]
    headers := []
    importedTypes := []
    path := "/dup"
    consumes := none
    produces := none }

theorem mapIdxFrom_length (f : α → Nat → β) (k : Nat) (l : List α) :
    (mapIdxFrom f k l).length = l.length := by
  induction l generalizing k with
  | nil => rfl
  | cons a as ih => simp [mapIdxFrom, ih]

theorem mapIdxFrom_getElem? (f : α → Nat → β) (l : List α) :
    ∀ (k i : Nat), (mapIdxFrom f k l)[i]? = (l[i]?).map (fun a => f a (k + i)) := by
  induction l with
  | nil => intro k i; simp [mapIdxFrom]
  | cons a as ih =>
    intro k i
    cases i with
    | zero => simp [mapIdxFrom]
    | succ j =>
      have harith : k + 1 + j = k + (j + 1) := by omega
      simp only [mapIdxFrom, List.getElem?_cons_succ, ih (k + 1) j, harith]

theorem mapIdx_length (f : α → Nat → β) (l : List α) :
    (mapIdx f l).length = l.length :=
  mapIdxFrom_length f 0 l

theorem mapIdx_getElem? (f : α → Nat → β) (l : List α) (i : Nat) :
    (mapIdx f l)[i]? = (l[i]?).map (fun a => f a i) := by
  simpa using mapIdxFrom_getElem? f l 0 i

theorem foldlIdxFrom_append (g : α → Nat → List β) (l : List α) :
    ∀ (b : List β) (k : Nat),
      foldlIdxFrom (fun p a i => p ++ g a i) b k l = b ++ flatMapIdxFrom g k l := by
  induction l with
  | nil => intro b k; simp [foldlIdxFrom, flatMapIdxFrom]
  | cons a as ih =>
    intro b k
    simp [foldlIdxFrom, flatMapIdxFrom, ih (b ++ g a k) (k + 1), List.append_assoc]

theorem responsesTGenericsWithDefaultTypes_eq (rs : List Response) :
    responsesTGenericsWithDefaultTypes rs =
      flatMapIdxFrom
        (fun r i =>
          ["A" ++ toString i ++ " = " ++ r.e2, "C" ++ toString i ++ " = " ++ r.e2])
        0 rs := by
  simpa using
    foldlIdxFrom_append
      (fun r i =>
        ["A" ++ toString i ++ " = " ++ r.e2, "C" ++ toString i ++ " = " ++ r.e2])
      rs [] 0

theorem flatGen_length (rs : List Response) :
    ∀ k : Nat,
      (flatMapIdxFrom
        (fun r i =>
          ["A" ++ toString i ++ " = " ++ r.e2, "C" ++ toString i ++ " = " ++ r.e2])
        k rs).length = 2 * rs.length := by
  induction rs with
  | nil => intro k; rfl
  | cons a as ih =>
    intro k
    simp only [flatMapIdxFrom, List.cons_append, List.nil_append, List.length_cons,
      List.length_cons, ih (k + 1)]
    omega

theorem flatGen_getElem? (rs : List Response) :
    ∀ (k i : Nat) (r : Response), rs[i]? = some r →
      (flatMapIdxFrom
        (fun r i =>
          ["A" ++ toString i ++ " = " ++ r.e2, "C" ++ toString i ++ " = " ++ r.e2])
        k rs)[2 * i]? = some ("A" ++ toString (k + i) ++ " = " ++ r.e2) ∧
      (flatMapIdxFrom
        (fun r i =>
          ["A" ++ toString i ++ " = " ++ r.e2, "C" ++ toString i ++ " = " ++ r.e2])
        k rs)[2 * i + 1]? = some ("C" ++ toString (k + i) ++ " = " ++ r.e2) := by
  induction rs with
  | nil => intro k i r hr; simp at hr
  | cons a as ih =>
    intro k i r hr
    cases i with
    | zero =>
      simp only [List.getElem?_cons_zero, Option.some.injEq] at hr
      subst hr
      constructor
      · simp [flatMapIdxFrom]
      · simp [flatMapIdxFrom]
    | succ j =>
      simp only [List.getElem?_cons_succ] at hr
      have h2 : 2 * (j + 1) = 2 * j + 1 + 1 := by omega
      have h3 : 2 * (j + 1) + 1 = 2 * j + 1 + 1 + 1 := by omega
      have harith : k + 1 + j = k + (j + 1) := by omega
      have := ih (k + 1) j r hr
      constructor
      · rw [h2]
        simp only [flatMapIdxFrom, List.cons_append, List.nil_append,
          List.getElem?_cons_succ]
        rw [← harith]
        exact this.1
      · rw [h3]
        simp only [flatMapIdxFrom, List.cons_append, List.nil_append,
          List.getElem?_cons_succ]
        rw [← harith]
        exact this.2

theorem find?_first_of_prefix {α : Type} (p : α → Bool) (pre : List α) (r : α)
    (post : List α) (hpre : ∀ x ∈ pre, p x = false) (hr : p r = true) :
    (pre ++ r :: post).find? p = some r := by
  induction pre with
  | nil => simpa using List.find?_cons_of_pos post hr
  | cons a t ih =>
    have ha : p a = false := hpre a (by simp)
    rw [List.cons_append, List.find?_cons_of_neg _ (by simp [ha])]
    exact ih (fun x hx => hpre x (by simp [hx]))

theorem is2xxStatus_iff (s : String) :
    is2xxStatus s = true ↔ (s.length = 3 ∧ s.data.head? = some '2') := by
  simp [is2xxStatus, Bool.and_eq_true, beq_iff_eq]

theorem renderDecoderCode_some (op : IOperationInfo) (fs : Response)
    (h : firstSuccessType op.responses = some fs) :
    renderDecoderCode op = decoderCodeBody op fs := by
  unfold renderDecoderCode
  rw [h]

/-- Claim C1: for every operation whose responses list contains no entry with a
status code of length 3 whose first character is `2`, `renderDecoderCode`
returns the empty string, so no default-responses map, no responses generic
type and no decoder function appear in its output. -/
theorem claim_C1_no_success_empty_output (op : IOperationInfo)
    (h : ∀ r ∈ op.responses, ¬(r.e1.length = 3 ∧ r.e1.data.head? = some '2')) :
    renderDecoderCode op = "" := by
  have hf : firstSuccessType op.responses = none := by
    rw [firstSuccessType, List.find?_eq_none]
    intro x hx
    rw [is2xxStatus_iff]
    exact h x hx
  unfold renderDecoderCode
  rw [hf]

/-- Witness for C1 at a concrete operation with responses 500 and 404 only. -/
theorem claim_C1_witness : renderDecoderCode sampleOpNo2xx = "" :=
  claim_C1_no_success_empty_output sampleOpNo2xx (by decide)

/-- Claim C2: whenever the responses list splits as `pre ++ r :: post` with a
qualifying `r` and no qualifying entry in `pre`, the success response selected
by `renderDecoderCode` is `r`, the first qualifying entry in input order, and
the emitted bare-decoder override shortcut maps the supplied decoder to the
status code of this very entry. -/
theorem claim_C2_first_success_selected (op : IOperationInfo)
    (pre post : List Response) (r : Response)
    (hresp : op.responses = pre ++ r :: post)
    (hr : r.e1.length = 3 ∧ r.e1.data.head? = some '2')
    (hpre : ∀ x ∈ pre, ¬(x.e1.length = 3 ∧ x.e1.data.head? = some '2')) :
    firstSuccessType op.responses = some r ∧
    ∃ a b, renderDecoderCode op =
      a ++ ("...(isDecoder(overrideTypes) ? \x7b " ++ r.e1 ++
        ": overrideTypes \x7d : overrideTypes)") ++ b := by
  have hfind : firstSuccessType op.responses = some r := by
    rw [hresp, firstSuccessType]
    apply find?_first_of_prefix
    · intro x hx
      cases his : is2xxStatus x.e1
      · rfl
      · exact absurd ((is2xxStatus_iff x.e1).mp his) (hpre x hx)
    · exact (is2xxStatus_iff r.e1).mpr hr
  refine ⟨hfind, ?_⟩
  refine ⟨"\n      " ++ defaultResponses op.operationId op.responses ++
    "\n      " ++ responsesT op.operationId op.responses ++
    "\n      export function " ++ decoderDefinitionName op.operationId op.responses ++
    "(overrideTypes: Partial<" ++ responsesTypeName op.operationId op.responses ++
    "> | " ++ responsesSuccessTContent op.responses r ++
    " | undefined = \x7b\x7d): " ++ returnType op.responses ++
    " \x7b\n        const isDecoder = (d: any): d is " ++
    responsesSuccessTContent op.responses r ++
    " =>\n          typeof d[\"_A\"] !== \"undefined\";\n\n        const " ++
    typeVarName ++ " = \x7b\n          ...(" ++
    defaultResponsesVarName op.operationId ++ " as unknown as " ++
    responsesTypeName op.operationId op.responses ++ "),\n          ",
    "\n        \x7d;\n\n        " ++ decoderDefinitions op.responses ++
    "\n        return " ++ composedDecoders op.responses ++
    "\n      \x7d" ++
    "\n\n      // Decodes the success response with the type defined in the specs\n      export const " ++
    defaultDecoderFunctionName op.operationId ++ " = () => " ++
    decoderFunctionName op.operationId ++ "();", ?_⟩
  rw [renderDecoderCode_some op r hfind]
  unfold decoderCodeBody
  simp only [String.append_assoc]

/-- Witness for C2: in `sampleOpDup` the entry with status `299` precedes the
`200` entries in input order (though `200` would precede it in sorted order),
and it is the one selected. -/
theorem claim_C2_witness :
    firstSuccessType sampleOpDup.responses = some ⟨"299", "Late", []⟩ ∧
    ∃ a b, renderDecoderCode sampleOpDup =
      a ++ ("...(isDecoder(overrideTypes) ? \x7b " ++ "299" ++
        ": overrideTypes \x7d : overrideTypes)") ++ b :=
  claim_C2_first_success_selected sampleOpDup []
    [⟨"200", "Thing", []⟩, ⟨"200", "Other", []⟩] ⟨"299", "Late", []⟩
    rfl (by decide) (by decide)

/-- Claim C3, counterexample: the claim quantifies over entries whose status
code is not three decimal digits and asserts the success scan never selects
them; the status code `2xx` is not three decimal digits, yet the scan (which
only checks length 3 and leading character `2`) selects that entry. -/
theorem claim_C3_counterexample :
    specIsThreeDecimalDigits "2xx" = false ∧
    firstSuccessType [⟨"2xx", "Thing", []⟩] = some ⟨"2xx", "Thing", []⟩ := by
  decide

/-- Claim C3 as amended: for every response entry whose status code fails the
scan's actual test — length exactly 3 and first character `2` — the
success-lookup scan never selects that entry; such entries are silently
excluded from the has-a-decodable-success decision rather than causing a
failure. -/
theorem claim_C3_amended_non_matching_never_selected (rs : List Response)
    (r : Response) (h : ¬(r.e1.length = 3 ∧ r.e1.data.head? = some '2')) :
    firstSuccessType rs ≠ some r := by
  intro hf
  rw [firstSuccessType] at hf
  have hsel := List.find?_some hf
  exact h ((is2xxStatus_iff r.e1).mp hsel)

/-- Witness for the amended C3: a `404` entry is never selected. -/
theorem claim_C3_witness :
    firstSuccessType [⟨"404", "undefined", []⟩] ≠ some ⟨"404", "undefined", []⟩ :=
  claim_C3_amended_non_matching_never_selected _ _ (by decide)

/-- Claim C4: when the payload type name is exactly the literal `Error`,
`getDecoderForResponse` emits the fixed error-response decoder constructor call
parameterized by the status code; the emitted expression does not depend on
the type-map variable name at all (no runtime type inspection), showing this
check takes priority over the undefined-vs-structural branch emitted for all
other type names. -/
theorem claim_C4_error_sentinel (status : String) (headers : List String)
    (v1 v2 : String) :
    getDecoderForResponse ⟨status, "Error", headers⟩ v1 =
      "r.basicErrorResponseDecoder<" ++ status ++ ">(" ++ status ++ ")" ∧
    getDecoderForResponse ⟨status, "Error", headers⟩ v1 =
      getDecoderForResponse ⟨status, "Error", headers⟩ v2 := by
  constructor <;> simp [getDecoderForResponse]

/-- Claim C5: for every operation with a qualifying success response, the
default-responses map emitted by `renderDecoderCode` is the first block of the
output and contains exactly one entry per response, in input order, mapping
each status code to its declared payload type name, except that the literal
payload type name `undefined` is rewritten to `t.undefined`. -/
theorem claim_C5_default_responses_map (op : IOperationInfo) (fs : Response)
    (h : firstSuccessType op.responses = some fs) :
    (∃ b, renderDecoderCode op =
      "\n      " ++ defaultResponses op.operationId op.responses ++ b) ∧
    defaultResponses op.operationId op.responses =
      "\n    export const " ++ defaultResponsesVarName op.operationId ++
        " = \x7b\n      " ++
        String.intercalate ", " (op.responses.map specDefaultResponseEntry) ++
        "\n    \x7d;\n  " ∧
    (op.responses.map specDefaultResponseEntry).length = op.responses.length ∧
    ∀ (i : Nat) (r : Response), op.responses[i]? = some r →
      (op.responses.map specDefaultResponseEntry)[i]? =
        some (r.e1 ++ ": " ++ (if r.e2 = "undefined" then "t.undefined" else r.e2)) := by
  refine ⟨?_, rfl, by simp, ?_⟩
  · refine ⟨"\n      " ++ responsesT op.operationId op.responses ++
      "\n      export function " ++ decoderDefinitionName op.operationId op.responses ++
      "(overrideTypes: Partial<" ++ responsesTypeName op.operationId op.responses ++
      "> | " ++ responsesSuccessTContent op.responses fs ++
      " | undefined = \x7b\x7d): " ++ returnType op.responses ++
      " \x7b\n        const isDecoder = (d: any): d is " ++
      responsesSuccessTContent op.responses fs ++
      " =>\n          typeof d[\"_A\"] !== \"undefined\";\n\n        const " ++
      typeVarName ++ " = \x7b\n          ...(" ++
      defaultResponsesVarName op.operationId ++ " as unknown as " ++
      responsesTypeName op.operationId op.responses ++ "),\n          " ++
      "...(isDecoder(overrideTypes) ? \x7b " ++ fs.e1 ++
      ": overrideTypes \x7d : overrideTypes)" ++ "\n        \x7d;\n\n        " ++
      decoderDefinitions op.responses ++
      "\n        return " ++ composedDecoders op.responses ++
      "\n      \x7d" ++
      "\n\n      // Decodes the success response with the type defined in the specs\n      export const " ++
      defaultDecoderFunctionName op.operationId ++ " = () => " ++
      decoderFunctionName op.operationId ++ "();", ?_⟩
    rw [renderDecoderCode_some op fs h]
    unfold decoderCodeBody
    simp only [String.append_assoc]
  · intro i r hi
    rw [List.getElem?_map, hi]
    by_cases hu : r.e2 = "undefined" <;> simp [hu, specDefaultResponseEntry]

/-- Witness for C5 at `sampleOp` (responses 200/Thing and 404/undefined). -/
theorem claim_C5_witness :
    (∃ b, renderDecoderCode sampleOp =
      "\n      " ++ defaultResponses sampleOp.operationId sampleOp.responses ++ b) ∧
    defaultResponses sampleOp.operationId sampleOp.responses =
      "\n    export const " ++ defaultResponsesVarName sampleOp.operationId ++
        " = \x7b\n      " ++
        String.intercalate ", " (sampleOp.responses.map specDefaultResponseEntry) ++
        "\n    \x7d;\n  " ∧
    (sampleOp.responses.map specDefaultResponseEntry).length =
      sampleOp.responses.length ∧
    ∀ (i : Nat) (r : Response), sampleOp.responses[i]? = some r →
      (sampleOp.responses.map specDefaultResponseEntry)[i]? =
        some (r.e1 ++ ": " ++ (if r.e2 = "undefined" then "t.undefined" else r.e2)) :=
  claim_C5_default_responses_map sampleOp ⟨"200", "Thing", []⟩ (by decide)

/-- Claim C6: for every operation with a qualifying success response and `n`
responses, the responses generic type emitted by `renderDecoderCode` declares
exactly `2 * n` type parameters — a decoded parameter `Ai` and an encoded
parameter `Ci` per response, in input order, each defaulted to that response's
declared payload type verbatim — and has one field per response whose name is
the literal status code and whose value type references that response's two
parameters. -/
theorem claim_C6_responses_generic_type (op : IOperationInfo) (fs : Response)
    (h : firstSuccessType op.responses = some fs) :
    (∃ a b, renderDecoderCode op =
      a ++ responsesT op.operationId op.responses ++ b) ∧
    responsesT op.operationId op.responses =
      "\n    export type " ++
        withGenerics (capitalize op.operationId ++ "ResponsesT")
          (responsesTGenericsWithDefaultTypes op.responses) ++
        " = \x7b\n      " ++
        String.intercalate ", " (responsesTContent op.responses) ++
        "\n    \x7d;\n  " ∧
    (responsesTGenericsWithDefaultTypes op.responses).length =
      2 * op.responses.length ∧
    (∀ (i : Nat) (r : Response), op.responses[i]? = some r →
      (responsesTGenericsWithDefaultTypes op.responses)[2 * i]? =
          some ("A" ++ toString i ++ " = " ++ r.e2) ∧
      (responsesTGenericsWithDefaultTypes op.responses)[2 * i + 1]? =
          some ("C" ++ toString i ++ " = " ++ r.e2)) ∧
    (responsesTContent op.responses).length = op.responses.length ∧
    ∀ (i : Nat) (r : Response), op.responses[i]? = some r →
      (responsesTContent op.responses)[i]? =
        some (r.e1 ++ ": t.Type<A" ++ toString i ++ ", C" ++ toString i ++ ">") := by
  refine ⟨?_, rfl, ?_, ?_, mapIdx_length _ _, ?_⟩
  · refine ⟨"\n      " ++ defaultResponses op.operationId op.responses ++ "\n      ",
      "\n      export function " ++ decoderDefinitionName op.operationId op.responses ++
      "(overrideTypes: Partial<" ++ responsesTypeName op.operationId op.responses ++
      "> | " ++ responsesSuccessTContent op.responses fs ++
      " | undefined = \x7b\x7d): " ++ returnType op.responses ++
      " \x7b\n        const isDecoder = (d: any): d is " ++
      responsesSuccessTContent op.responses fs ++
      " =>\n          typeof d[\"_A\"] !== \"undefined\";\n\n        const " ++
      typeVarName ++ " = \x7b\n          ...(" ++
      defaultResponsesVarName op.operationId ++ " as unknown as " ++
      responsesTypeName op.operationId op.responses ++ "),\n          " ++
      "...(isDecoder(overrideTypes) ? \x7b " ++ fs.e1 ++
      ": overrideTypes \x7d : overrideTypes)" ++ "\n        \x7d;\n\n        " ++
      decoderDefinitions op.responses ++
      "\n        return " ++ composedDecoders op.responses ++
      "\n      \x7d" ++
      "\n\n      // Decodes the success response with the type defined in the specs\n      export const " ++
      defaultDecoderFunctionName op.operationId ++ " = () => " ++
      decoderFunctionName op.operationId ++ "();", ?_⟩
    rw [renderDecoderCode_some op fs h]
    unfold decoderCodeBody
    simp only [String.append_assoc]
  · rw [responsesTGenericsWithDefaultTypes_eq]
    exact flatGen_length op.responses 0
  · intro i r hi
    rw [responsesTGenericsWithDefaultTypes_eq]
    have := flatGen_getElem? op.responses 0 i r hi
    simpa using this
  · intro i r hi
    rw [responsesTContent, mapIdx_getElem?, hi]
    rfl

/-- Witness for C6 at `sampleOp`. -/
theorem claim_C6_witness :
    (∃ a b, renderDecoderCode sampleOp =
      a ++ responsesT sampleOp.operationId sampleOp.responses ++ b) ∧
    responsesT sampleOp.operationId sampleOp.responses =
      "\n    export type " ++
        withGenerics (capitalize sampleOp.operationId ++ "ResponsesT")
          (responsesTGenericsWithDefaultTypes sampleOp.responses) ++
        " = \x7b\n      " ++
        String.intercalate ", " (responsesTContent sampleOp.responses) ++
        "\n    \x7d;\n  " ∧
    (responsesTGenericsWithDefaultTypes sampleOp.responses).length =
      2 * sampleOp.responses.length ∧
    (∀ (i : Nat) (r : Response), sampleOp.responses[i]? = some r →
      (responsesTGenericsWithDefaultTypes sampleOp.responses)[2 * i]? =
          some ("A" ++ toString i ++ " = " ++ r.e2) ∧
      (responsesTGenericsWithDefaultTypes sampleOp.responses)[2 * i + 1]? =
          some ("C" ++ toString i ++ " = " ++ r.e2)) ∧
    (responsesTContent sampleOp.responses).length = sampleOp.responses.length ∧
    ∀ (i : Nat) (r : Response), sampleOp.responses[i]? = some r →
      (responsesTContent sampleOp.responses)[i]? =
        some (r.e1 ++ ": t.Type<A" ++ toString i ++ ", C" ++ toString i ++ ">") :=
  claim_C6_responses_generic_type sampleOp ⟨"200", "Thing", []⟩ (by decide)

theorem decoderName_data (s : String) : (decoderName s).data = 'd' :: s.data := by
  rw [decoderName, String.data_append]
  rfl

theorem composed_foldl_drop_sentinel (l : List Response) :
    ∀ acc : String, acc.data ≠ [] →
      l.foldl
        (fun acc r =>
          if acc == "" then decoderName r.e1
          else "r.composeResponseDecoders(" ++ acc ++ ", " ++ decoderName r.e1 ++ ")")
        acc =
      l.foldl
        (fun acc r =>
          "r.composeResponseDecoders(" ++ acc ++ ", " ++ decoderName r.e1 ++ ")")
        acc := by
  induction l with
  | nil => intro acc h; rfl
  | cons a t ih =>
    intro acc h
    have hne : (acc == "") = false := by
      rw [beq_eq_false_iff_ne]
      intro hh
      apply h
      rw [hh]
    simp only [List.foldl_cons, hne, Bool.false_eq_true, if_false]
    apply ih
    rw [String.data_append]
    simp

/-- Claim C7: for every non-empty responses list (and an operation with a
qualifying success response, so that the chain is emitted), the composed
decoder chain of `renderDecoderCode` is a left-to-right fold over the
per-status decoder bindings in exact input order, seeded with the first
response's decoder: the `i`-th remaining response's decoder is the second
argument of the `i`-th composition call. -/
theorem claim_C7_composition_input_order (op : IOperationInfo) (fs : Response)
    (r0 : Response) (rest : List Response)
    (h : firstSuccessType op.responses = some fs)
    (hresp : op.responses = r0 :: rest) :
    composedDecoders op.responses =
      rest.foldl
        (fun acc x =>
          "r.composeResponseDecoders(" ++ acc ++ ", " ++ decoderName x.e1 ++ ")")
        (decoderName r0.e1) ∧
    ∃ a b, renderDecoderCode op =
      a ++ ("\n        return " ++ composedDecoders op.responses ++ "\n      \x7d") ++ b := by
  constructor
  · rw [hresp]
    unfold composedDecoders
    rw [List.foldl_cons]
    have hseed : (("" : String) == "") = true := rfl
    simp only [hseed, if_true]
    apply composed_foldl_drop_sentinel
    rw [decoderName_data]
    simp
  · refine ⟨"\n      " ++ defaultResponses op.operationId op.responses ++
      "\n      " ++ responsesT op.operationId op.responses ++
      "\n      export function " ++ decoderDefinitionName op.operationId op.responses ++
      "(overrideTypes: Partial<" ++ responsesTypeName op.operationId op.responses ++
      "> | " ++ responsesSuccessTContent op.responses fs ++
      " | undefined = \x7b\x7d): " ++ returnType op.responses ++
      " \x7b\n        const isDecoder = (d: any): d is " ++
      responsesSuccessTContent op.responses fs ++
      " =>\n          typeof d[\"_A\"] !== \"undefined\";\n\n        const " ++
      typeVarName ++ " = \x7b\n          ...(" ++
      defaultResponsesVarName op.operationId ++ " as unknown as " ++
      responsesTypeName op.operationId op.responses ++ "),\n          " ++
      "...(isDecoder(overrideTypes) ? \x7b " ++ fs.e1 ++
      ": overrideTypes \x7d : overrideTypes)" ++ "\n        \x7d;\n\n        " ++
      decoderDefinitions op.responses,
      "\n\n      // Decodes the success response with the type defined in the specs\n      export const " ++
      defaultDecoderFunctionName op.operationId ++ " = () => " ++
      decoderFunctionName op.operationId ++ "();", ?_⟩
    rw [renderDecoderCode_some op fs h]
    unfold decoderCodeBody
    simp only [String.append_assoc]

/-- Witness for C7 at `sampleOp`: the chain is seeded with `d200` and composes
`d404` onto it in input order. -/
theorem claim_C7_witness :
    composedDecoders sampleOp.responses =
      [(⟨"404", "undefined", []⟩ : Response)].foldl
        (fun acc x =>
          "r.composeResponseDecoders(" ++ acc ++ ", " ++ decoderName x.e1 ++ ")")
        (decoderName "200") ∧
    ∃ a b, renderDecoderCode sampleOp =
      a ++ ("\n        return " ++ composedDecoders sampleOp.responses ++ "\n      \x7d") ++ b :=
  claim_C7_composition_input_order sampleOp ⟨"200", "Thing", []⟩ ⟨"200", "Thing", []⟩
    [⟨"404", "undefined", []⟩] (by decide) rfl

theorem contains_append_q (l1 l2 : List Char) :
    (l1 ++ '?' :: l2).contains '?' = true := by
  induction l1 with
  | nil => simp [List.contains_cons]
  | cons c t ih =>
    rw [List.cons_append, List.contains_cons, ih]
    simp

theorem removeFirstQAux_split (l1 l2 : List Char) (h : l1.contains '?' = false) :
    removeFirstQAux (l1 ++ '?' :: l2) = l1 ++ l2 := by
  induction l1 with
  | nil => simp [removeFirstQAux]
  | cons c t ih =>
    rw [List.contains_cons, Bool.or_eq_false_iff] at h
    have hc : ¬(c = '?') := fun hh => (beq_eq_false_iff_ne.mp h.1) hh.symm
    simp [removeFirstQAux, hc, ih h.2]

/-- Claim C8: a parameter whose name contains `?` is rendered by
`renderOperation` in the request-type parameter object as an optional property
whose double-quoted string-literal key is the name with the `?` removed (JS
`replace` with a string pattern removes the first occurrence), followed by the
optional marker; parameter names without `?` render as required double-quoted
keys. -/
theorem claim_C8_optional_parameter_keys (op : IOperationInfo) (g : Bool)
    (p : IParameterInfo) (a b : String)
    (hname : p.name = a ++ "?" ++ b)
    (ha : a.data.contains '?' = false) :
    escapeIdentifier p.name = "\"" ++ (a ++ b) ++ "\"?" ∧
    (∀ q : IParameterInfo, q.name.data.contains '?' = false →
      escapeIdentifier q.name = "\"" ++ q.name ++ "\"") ∧
    paramsCode op.parameters =
      String.intercalate ","
        (op.parameters.map
          (fun q => "readonly " ++ escapeIdentifier q.name ++ ": " ++ q.type)) ∧
    ∃ c d, renderOperation op g =
      c ++ ("<\x7b" ++ paramsCode op.parameters ++ "\x7d, ") ++ d := by
  have hdata : p.name.data = a.data ++ '?' :: b.data := by
    rw [hname, String.data_append, String.data_append]
    simp
  refine ⟨?_, ?_, rfl, ?_⟩
  · have hcont : p.name.data.contains '?' = true := by
      rw [hdata]
      exact contains_append_q a.data b.data
    have hrem : removeFirstQuestion p.name = a ++ b := by
      apply String.ext
      show removeFirstQAux p.name.data = (a ++ b).data
      rw [hdata, String.data_append]
      exact removeFirstQAux_split a.data b.data ha
    unfold escapeIdentifier
    rw [if_pos hcont, hrem]
  · intro q hq
    have hq2 : ¬(q.name.data.contains '?' = true) := by
      rw [hq]
      exact Bool.false_ne_true
    unfold escapeIdentifier
    rw [if_neg hq2]
  · refine ⟨"\n    /****************************************************************\n     * " ++
      op.operationId ++
      "\n     */\n\n    // Request type definition\n    " ++
      "export type " ++ capitalize op.operationId ++ "T = " ++ requestType op.method,
      headersCode op.headers ++ ", never, " ++ responsesType op.responses ++
      ">;\n  " ++ (if g then renderDecoderCode op else ""), ?_⟩
    unfold renderOperation requestTypeDefinition
    simp only [String.append_assoc]

/-- Witness for C8: the parameter named `limit?` of `sampleOp` renders as an
optional property keyed `"limit"`. -/
theorem claim_C8_witness :
    escapeIdentifier "limit?" = "\"" ++ ("limit" ++ "") ++ "\"?" ∧
    (∀ q : IParameterInfo, q.name.data.contains '?' = false →
      escapeIdentifier q.name = "\"" ++ q.name ++ "\"") ∧
    paramsCode sampleOp.parameters =
      String.intercalate ","
        (sampleOp.parameters.map
          (fun q => "readonly " ++ escapeIdentifier q.name ++ ": " ++ q.type)) ∧
    ∃ c d, renderOperation sampleOp true =
      c ++ ("<\x7b" ++ paramsCode sampleOp.parameters ++ "\x7d, ") ++ d :=
  claim_C8_optional_parameter_keys sampleOp true
    ⟨"limit?", "number", "query", none⟩ "limit" "" (by decide) (by decide)

/-- Claim C9: synthesis is deterministic — `renderOperation` and
`renderDecoderCode` are pure functions of their input, so equal inputs produce
byte-identical output text. -/
theorem claim_C9_deterministic (op1 op2 : IOperationInfo) (g1 g2 : Bool)
    (h : op1 = op2) (hg : g1 = g2) :
    renderOperation op1 g1 = renderOperation op2 g2 ∧
    renderDecoderCode op1 = renderDecoderCode op2 := by
  subst h
  subst hg
  exact ⟨rfl, rfl⟩

/-- Witness for C9 at `sampleOp`. -/
theorem claim_C9_witness :
    renderOperation sampleOp true = renderOperation sampleOp true ∧
    renderDecoderCode sampleOp = renderDecoderCode sampleOp :=
  claim_C9_deterministic sampleOp sampleOp true true rfl rfl

/-- Claim C10 (implicit): per-status decoder binding names depend only on the
status code (`d` followed by the code), so a responses list with two entries
sharing a status code (at distinct positions `i` and `j`) makes
`renderDecoderCode` emit two const declarations with the identical name in the
same block: the per-response declaration list keeps one entry per response (no
deduplication) and the i-th and j-th declarations start with the same
`const d<code> = (` text, and the block is emitted as-is in the output rather
than being rejected. -/
theorem claim_C10_duplicate_status_duplicate_decls (op : IOperationInfo)
    (fs : Response) (i j : Nat) (ri rj : Response)
    (hi : op.responses[i]? = some ri) (hj : op.responses[j]? = some rj)
    (_hne : i ≠ j) (he : ri.e1 = rj.e1)
    (h : firstSuccessType op.responses = some fs) :
    decoderName ri.e1 = decoderName rj.e1 ∧
    (decoderDefinitionsList op.responses).length = op.responses.length ∧
    (decoderDefinitionsList op.responses)[i]? = some (decoderDefBlock ri i) ∧
    (decoderDefinitionsList op.responses)[j]? = some (decoderDefBlock rj j) ∧
    (∃ t1, decoderDefBlock ri i =
      "\n    const " ++ decoderName ri.e1 ++ " = (" ++ t1) ∧
    (∃ t2, decoderDefBlock rj j =
      "\n    const " ++ decoderName ri.e1 ++ " = (" ++ t2) ∧
    decoderDefinitions op.responses =
      String.join (decoderDefinitionsList op.responses) ∧
    ∃ a b, renderDecoderCode op =
      a ++ decoderDefinitions op.responses ++ b := by
  refine ⟨by rw [he], mapIdx_length _ _, ?_, ?_, ?_, ?_, rfl, ?_⟩
  · rw [decoderDefinitionsList, mapIdx_getElem?, hi]
    rfl
  · rw [decoderDefinitionsList, mapIdx_getElem?, hj]
    rfl
  · refine ⟨getDecoderForResponse ri typeVarName ++
      ") as r.ResponseDecoder<r.IResponseType<" ++ ri.e1 ++ ", A" ++ toString i ++
      ", " ++ toUnionOfLiterals ri.e3 ++ ">>;\n  ", ?_⟩
    unfold decoderDefBlock
    simp only [String.append_assoc]
  · refine ⟨getDecoderForResponse rj typeVarName ++
      ") as r.ResponseDecoder<r.IResponseType<" ++ rj.e1 ++ ", A" ++ toString j ++
      ", " ++ toUnionOfLiterals rj.e3 ++ ">>;\n  ", ?_⟩
    rw [he]
    unfold decoderDefBlock
    simp only [String.append_assoc]
  · refine ⟨"\n      " ++ defaultResponses op.operationId op.responses ++
      "\n      " ++ responsesT op.operationId op.responses ++
      "\n      export function " ++ decoderDefinitionName op.operationId op.responses ++
      "(overrideTypes: Partial<" ++ responsesTypeName op.operationId op.responses ++
      "> | " ++ responsesSuccessTContent op.responses fs ++
      " | undefined = \x7b\x7d): " ++ returnType op.responses ++
      " \x7b\n        const isDecoder = (d: any): d is " ++
      responsesSuccessTContent op.responses fs ++
      " =>\n          typeof d[\"_A\"] !== \"undefined\";\n\n        const " ++
      typeVarName ++ " = \x7b\n          ...(" ++
      defaultResponsesVarName op.operationId ++ " as unknown as " ++
      responsesTypeName op.operationId op.responses ++ "),\n          " ++
      "...(isDecoder(overrideTypes) ? \x7b " ++ fs.e1 ++
      ": overrideTypes \x7d : overrideTypes)" ++ "\n        \x7d;\n\n        ",
      "\n        return " ++ composedDecoders op.responses ++
      "\n      \x7d" ++
      "\n\n      // Decodes the success response with the type defined in the specs\n      export const " ++
      defaultDecoderFunctionName op.operationId ++ " = () => " ++
      decoderFunctionName op.operationId ++ "();", ?_⟩
    rw [renderDecoderCode_some op fs h]
    unfold decoderCodeBody
    simp only [String.append_assoc]

/-- Witness for C10 at `sampleOpDup`, whose responses list the status code
`200` twice (positions 1 and 2). -/
theorem claim_C10_witness :
    decoderName "200" = decoderName "200" ∧
    (decoderDefinitionsList sampleOpDup.responses).length =
      sampleOpDup.responses.length ∧
    (decoderDefinitionsList sampleOpDup.responses)[1]? =
      some (decoderDefBlock ⟨"200", "Thing", []⟩ 1) ∧
    (decoderDefinitionsList sampleOpDup.responses)[2]? =
      some (decoderDefBlock ⟨"200", "Other", []⟩ 2) ∧
    (∃ t1, decoderDefBlock ⟨"200", "Thing", []⟩ 1 =
      "\n    const " ++ decoderName "200" ++ " = (" ++ t1) ∧
    (∃ t2, decoderDefBlock ⟨"200", "Other", []⟩ 2 =
      "\n    const " ++ decoderName "200" ++ " = (" ++ t2) ∧
    decoderDefinitions sampleOpDup.responses =
      String.join (decoderDefinitionsList sampleOpDup.responses) ∧
    ∃ a b, renderDecoderCode sampleOpDup =
      a ++ decoderDefinitions sampleOpDup.responses ++ b :=
  claim_C10_duplicate_status_duplicate_decls sampleOpDup ⟨"299", "Late", []⟩
    1 2 ⟨"200", "Thing", []⟩ ⟨"200", "Other", []⟩
    (by decide) (by decide) (by decide) rfl (by decide)
